import Mathlib

/-!
Verification of the generation pipeline of `vite-plugin-pinia-auto-store`
(`src/index.ts`), shallowly embedded in Lean.

Strings are modelled with Lean `String`; the JavaScript string operations
`startsWith`, `endsWith`, `replace(/suffix$/, repl)`, `replace(/\\/g, '/')`
and `replace(/\.(ts|js)$/, '')` are embedded as executable functions on the
underlying character lists.  The asynchronous file-system calls performed by
`generateConfigFiles` (`mkdir -p`, `readdir`, `writeFile`) are embedded as an
explicit effect trace: the directory listing obtained from `readdir` is an
input of the function (`none` models the directory-not-found rejection), and
the function returns the ordered list of file-system operations it performs
together with the error it propagates, if any.

The emitted template literals of `src/index.ts` are embedded line by line:
`jsContentLines`, `dtsContentLines` and `tsContentLines` list the lines of
the three generated artifacts exactly as the source templates produce them,
and the written file contents are their `"\n"`-intercalations.  Braces and
single quotes inside string literals are written with `\x7b`, `\x7d`, `\x27`
escapes.
-/

/-- Model of JavaScript `s.startsWith(pre)` on character lists. -/
def startsWithS (s pre : String) : Bool :=
  pre.data.isPrefixOf s.data

/-- Model of JavaScript `s.endsWith(suffix)` on character lists. -/
def endsWithS (s suffix : String) : Bool :=
  suffix.data.reverse.isPrefixOf s.data.reverse

/-- Model of JavaScript `s.replace(/<suffix>$/, rep)` for a literal suffix:
if `s` ends with `suffix` the suffix is replaced by `rep`, otherwise `s` is
unchanged. -/
def replaceSuffix (s suffix rep : String) : String :=
  if endsWithS s suffix then
    String.mk (s.data.take (s.data.length - suffix.data.length)) ++ rep
  else s

/-- Model of `relativeStorePath.replace(/\\/g, '/')` (src/index.ts line 71):
every backslash character is replaced by a forward slash. -/
def replaceBackslashes (s : String) : String :=
  String.mk (s.data.map fun c => if c = '\\' then '/' else c)

/-- Model of `i.replace(/\.(ts|js)$/, '')` (src/index.ts line 66): strip a
trailing `.ts` or `.js` extension. -/
def stripExt (i : String) : String :=
  if endsWithS i ".ts" || endsWithS i ".js" then
    String.mk (i.data.take (i.data.length - 3))
  else i

/-- POSIX model of `isAbsolute` from `node:path`. -/
def isAbsoluteS (p : String) : Bool :=
  startsWithS p "/"

/-- Model of `resolvePath` (src/index.ts line 45):
`isAbsolute(target) ? target : resolve(root, target)`, with `resolve`
modelled as POSIX path concatenation of an absolute root and a relative
target. -/
def resolvePath (root target : String) : String :=
  if isAbsoluteS target then target else root ++ "/" ++ target

/-- Model of `dirname` from `node:path` for the common case: everything up
to the last `/` separator, `"."` when there is no separator. -/
def dirnameS (p : String) : String :=
  match p.data.reverse.dropWhile (fun c => c ≠ '/') with
  | [] => "."
  | [_] => "/"
  | _ :: t => String.mk t.reverse

/-- The two output kinds of the plugin (`outputType` option values). -/
inductive OutputType
  | ts
  | js
deriving DecidableEq

/-- The plugin options that the generation pipeline reads, after the merge
with `defaultOptions` (src/index.ts lines 15-25).  The include/exclude glob
patterns are realized by the injected filter predicate (the `createFilter`
collaborator) and are therefore not part of this record. -/
structure Options where
  storeDir : String
  output : String
  outputType : Option OutputType

/-- The defaults of src/index.ts lines 15-20 (no default `outputType`). -/
def defaultOptions : Options :=
  { storeDir := "src/store", output := "src/helper/use-store.ts", outputType := none }

/-- Model of `detectOutputType` (src/index.ts lines 29-41): an explicitly
supplied `outputType` is returned as-is; otherwise `js` when `output` ends
in `.js`, then `ts` when it ends in `.ts`, and `ts` as the final default. -/
def detectOutputType (explicitOT : Option OutputType) (output : String) : OutputType :=
  match explicitOT with
  | some t => t
  | none =>
    if endsWithS output ".js" then OutputType.js
    else if endsWithS output ".ts" then OutputType.ts
    else OutputType.ts

/-- Model of `outputPath` (src/index.ts lines 47-55) applied to the already
resolved output path: for kind `js`, keep the path if it ends in `.js`, else
rewrite a `.ts` suffix to `.js`; for kind `ts`, keep the path if it ends in
`.ts`, else rewrite a `.js` suffix to `.ts`. -/
def outputPathOf (ot : OutputType) (path : String) : String :=
  match ot with
  | OutputType.js => if endsWithS path ".js" then path else replaceSuffix path ".ts" ".js"
  | OutputType.ts => if endsWithS path ".ts" then path else replaceSuffix path ".js" ".ts"

/-- Model of `outputDtsPath` (src/index.ts line 56):
`outputPath().replace(/\.js$/, '.d.ts')`. -/
def outputDtsPathOf (p : String) : String :=
  replaceSuffix p ".js" ".d.ts"

/-- Model of src/index.ts lines 69-74: take the raw result of
`relative(outputDir(), storeRoot)`, replace backslashes by forward slashes,
and prepend `./` when the result does not already start with `.`. -/
def relativeStorePath (raw : String) : String :=
  if startsWithS (replaceBackslashes raw) "." then replaceBackslashes raw
  else "./" ++ replaceBackslashes raw

/-- Model of src/index.ts lines 64-66: filter the directory entries through
the injected predicate applied to the absolute entry path, then strip the
recognized extensions to obtain the identifier list.  No deduplication is
performed. -/
def storeNamesOf (storeRoot : String) (filterFn : String → Bool)
    (entries : List String) : List String :=
  (entries.filter fun i => filterFn (resolvePath storeRoot i)).map stripExt

/-- One per-entry import statement of the implementation artifacts
(src/index.ts lines 82-86 and 145-149). -/
def storeImportStmt (rel n : String) : String :=
  "import " ++ (n ++ ("Store from \x27" ++ (rel ++ ("/" ++ (n ++ "\x27")))))

/-- One per-entry type import statement of the declaration artifact
(src/index.ts lines 111-115). -/
def dtsImportStmt (rel n : String) : String :=
  "import type " ++ (n ++ ("Store from \x27" ++ (rel ++ ("/" ++ (n ++ "\x27")))))

/-- The shared-instance import `import store from '<rel>'`
(src/index.ts lines 88 and 151). -/
def sharedImportStmt (rel : String) : String :=
  "import store from \x27" ++ (rel ++ "\x27")

/-- One dispatch-table entry line `    <n>: <n>Store,` as emitted inside the
accessor function of both implementation artifacts (src/index.ts lines 92-96
and 169-174). -/
def dispatchTableLine (n : String) : String :=
  "    " ++ (n ++ (": " ++ (n ++ "Store,")))

/-- One lookup-table type entry line `  <n>: typeof <n>Store` of the
`StoreExports` type (src/index.ts lines 123-128 and 159-164). -/
def typeTableLine (n : String) : String :=
  "  " ++ (n ++ (": typeof " ++ (n ++ "Store")))

/-- Fixed leading lines of the generated `.js` artifact. -/
def jsHead : List String :=
  ["",
   "/* eslint-disable */",
   "import \x7b storeToRefs \x7d from \x27pinia\x27",
   ""]

/-- Fixed lines of the `.js` artifact between the shared import and the
dispatch-table entries. -/
def jsFnBlock : List String :=
  ["",
   "export function useStore(storeName) \x7b",
   "  const storeExports = \x7b"]

/-- Fixed trailing lines of the generated `.js` artifact. -/
def jsTail : List String :=
  ["  \x7d",
   "",
   "  const targetStore = storeExports[storeName](store)",
   "  const storeRefs = storeToRefs(targetStore)",
   "",
   "  return \x7b ...targetStore, ...storeRefs \x7d",
   "\x7d",
   ""]

/-- The lines of the generated JavaScript implementation artifact
(`jsContent`, src/index.ts lines 78-103), in emission order. -/
def jsContentLines (names : List String) (rel : String) : List String :=
  jsHead ++ names.map (storeImportStmt rel) ++ ["", ""] ++ [sharedImportStmt rel]
    ++ jsFnBlock ++ names.map dispatchTableLine ++ jsTail

/-- Fixed leading lines of the generated `.d.ts` artifact. -/
def dtsHead : List String :=
  ["",
   "/* eslint-disable */",
   "import type \x7b ToRef, UnwrapRef \x7d from \x27vue\x27",
   "import type \x7b StoreDefinition \x7d from \x27pinia\x27",
   ""]

/-- Fixed lines of the `.d.ts` artifact between the per-entry type imports
and the lookup-table type entries. -/
def dtsMid : List String :=
  ["",
   "",
   "type StoreToRefs<T extends StoreDefinition> = \x7b",
   "  [K in keyof ReturnType<T>]: ReturnType<T>[K] extends (...args: unknown[]) => unknown",
   "    ? ReturnType<T>[K]",
   "    : ToRef<UnwrapRef<ReturnType<T>[K]>>",
   "\x7d",
   "",
   "type StoreExports = \x7b"]

/-- Fixed trailing lines of the generated `.d.ts` artifact. -/
def dtsTail : List String :=
  ["\x7d",
   "",
   "export function useStore<T extends keyof StoreExports>(",
   "  storeName: T",
   "): StoreToRefs<StoreExports[T]>",
   ""]

/-- The lines of the generated type-declaration artifact (`dtsContent`,
src/index.ts lines 106-133), in emission order.  Note: it contains no
shared-instance import. -/
def dtsContentLines (names : List String) (rel : String) : List String :=
  dtsHead ++ names.map (dtsImportStmt rel) ++ dtsMid ++ names.map typeTableLine ++ dtsTail

/-- Fixed leading lines of the generated combined `.ts` artifact. -/
def tsHead : List String :=
  ["",
   "/* eslint-disable */",
   "// @ts-nocheck",
   "import \x7b storeToRefs \x7d from \x27pinia\x27",
   "import type \x7b ToRef, UnwrapRef \x7d from \x27vue\x27",
   "import type \x7b StoreDefinition \x7d from \x27pinia\x27",
   ""]

/-- Fixed lines of the `.ts` artifact between the shared import and the
lookup-table type entries. -/
def tsTypeBlock : List String :=
  ["",
   "type StoreToRefs<T extends StoreDefinition> = \x7b",
   "  [K in keyof ReturnType<T>]: ReturnType<T>[K] extends (...args: unknown[]) => unknown",
   "    ? ReturnType<T>[K]",
   "    : ToRef<UnwrapRef<ReturnType<T>[K]>>",
   "\x7d",
   "",
   "type StoreExports = \x7b"]

/-- Fixed lines of the `.ts` artifact between the lookup-table type entries
and the dispatch-table entries. -/
def tsFnBlock : List String :=
  ["\x7d",
   "",
   "export function useStore<T extends keyof StoreExports>(",
   "  storeName: T",
   "): StoreToRefs<StoreExports[T]> \x7b",
   "  const storeExports = \x7b"]

/-- Fixed trailing lines of the generated combined `.ts` artifact. -/
def tsTail : List String :=
  ["  \x7d as StoreExports",
   "",
   "  const targetStore = storeExports[storeName](store)",
   "  const storeRefs = storeToRefs(targetStore)",
   "",
   "  return \x7b ...targetStore, ...storeRefs \x7d as StoreToRefs<StoreExports[T]>",
   "\x7d",
   ""]

/-- The lines of the generated combined TypeScript artifact (`tsContent`,
src/index.ts lines 138-181), in emission order. -/
def tsContentLines (names : List String) (rel : String) : List String :=
  tsHead ++ names.map (storeImportStmt rel) ++ ["", ""] ++ [sharedImportStmt rel]
    ++ tsTypeBlock ++ names.map typeTableLine ++ tsFnBlock
    ++ names.map dispatchTableLine ++ tsTail

/-- The full text of the JavaScript implementation artifact. -/
def jsContent (names : List String) (rel : String) : String :=
  String.intercalate "\n" (jsContentLines names rel)

/-- The full text of the type-declaration artifact. -/
def dtsContent (names : List String) (rel : String) : String :=
  String.intercalate "\n" (dtsContentLines names rel)

/-- The full text of the combined TypeScript artifact. -/
def tsContent (names : List String) (rel : String) : String :=
  String.intercalate "\n" (tsContentLines names rel)

/-- The import statements of an artifact, extracted from its line list. -/
def importStmtsOf (lines : List String) : List String :=
  lines.filter fun l => startsWithS l "import"

/-- The dispatch-table entry lines of an artifact (exactly the lines ending
in `Store,`). -/
def dispatchEntriesOf (lines : List String) : List String :=
  lines.filter fun l => endsWithS l "Store,"

/-- The lookup-table type entry lines of an artifact (exactly the lines
ending in `Store`). -/
def typeEntriesOf (lines : List String) : List String :=
  lines.filter fun l => endsWithS l "Store"

/-- A file-system operation performed by a generation run. -/
inductive FsOp
  | mkdirRec (dir : String)
  | writeFile (path content : String)
deriving DecidableEq

/-- Is the operation a file write? -/
def isWriteOp (op : FsOp) : Bool :=
  match op with
  | FsOp.writeFile _ _ => true
  | FsOp.mkdirRec _ => false

/-- The error a generation run can propagate: `readdir` rejecting because
the store directory does not exist (src/index.ts line 63). -/
inductive GenError
  | dirNotFound
deriving DecidableEq

/-- The write operations a run performs after a successful enumeration
(src/index.ts lines 134-135 and 182): both artifacts in `js` mode, the
combined artifact in `ts` mode. -/
def emittedOps (ot : OutputType) (outP dtsP : String) (names : List String)
    (rel : String) : List FsOp :=
  match ot with
  | OutputType.js =>
      [FsOp.writeFile outP (jsContent names rel),
       FsOp.writeFile dtsP (dtsContent names rel)]
  | OutputType.ts =>
      [FsOp.writeFile outP (tsContent names rel)]

/-- Model of `generateConfigFiles` (src/index.ts lines 60-184) as an effect
trace.  Inputs: the project root, the merged options, the injected filter
predicate, the raw result of `relative(outputDir(), storeRoot)` (an oracle
for the platform-dependent `node:path` computation), and the `readdir`
listing (`none` when the store directory does not exist).  Output: the
ordered file-system operations performed and the propagated error, if any.
The recursive `mkdir` of the output directory (line 61) precedes the
`readdir` (line 63), which precedes every `writeFile`. -/
def generateConfigFiles (root : String) (opts : Options) (filterFn : String → Bool)
    (rawRel : String) (listing : Option (List String)) :
    List FsOp × Option GenError :=
  match listing with
  | none =>
      ([FsOp.mkdirRec (dirnameS (outputPathOf
          (detectOutputType opts.outputType opts.output) (resolvePath root opts.output)))],
       some GenError.dirNotFound)
  | some entries =>
      (FsOp.mkdirRec (dirnameS (outputPathOf
          (detectOutputType opts.outputType opts.output) (resolvePath root opts.output)))
        :: emittedOps (detectOutputType opts.outputType opts.output)
            (outputPathOf (detectOutputType opts.outputType opts.output)
              (resolvePath root opts.output))
            (outputDtsPathOf (outputPathOf (detectOutputType opts.outputType opts.output)
              (resolvePath root opts.output)))
            (storeNamesOf (resolvePath root opts.storeDir) filterFn entries)
            (relativeStorePath rawRel),
       none)

/-- A file-system state: the contents of each file path, if the file
exists. -/
def FileState : Type :=
  String → Option String

/-- Apply one file-system operation to a file state.  Creating a directory
changes no file contents; a write replaces the contents at its path. -/
def applyFsOp (st : FileState) (op : FsOp) : FileState :=
  match op with
  | FsOp.mkdirRec _ => st
  | FsOp.writeFile p c => fun q => if q = p then some c else st q

/-- Apply a trace of file-system operations in order. -/
def applyFsOps (st : FileState) (ops : List FsOp) : FileState :=
  ops.foldl applyFsOp st

/-- The contents written by a trace, in order. -/
def writtenContents (ops : List FsOp) : List String :=
  ops.filterMap fun op =>
    match op with
    | FsOp.writeFile _ c => some c
    | FsOp.mkdirRec _ => none

/-- A sample prior file state used to instantiate frame theorems. -/
def sampleFileState : FileState :=
  fun p => if p = "/proj/src/helper/use-store.ts" then some "old contents" else none

/-- The file-system events the dev-server watcher can report. -/
inductive WatchEvent
  | add
  | unlink
  | change
deriving DecidableEq

/-- Model of the watcher registration (src/index.ts lines 209-216): the
plugin installs handlers for `add` and `unlink` only, and each handler
returns without scheduling when the path does not start with the watched
root or ends in neither `.ts` nor `.js`.  No handler is installed for
`change` events, so they never schedule.  The result is whether the
debounced regeneration is scheduled for the event. -/
def watcherSchedules (watchedRoot : String) (ev : WatchEvent) (file : String) : Bool :=
  match ev with
  | WatchEvent.change => false
  | _ =>
      if !(startsWithS file watchedRoot)
          || (!(endsWithS file ".ts") && !(endsWithS file ".js")) then false
      else true

/-- Modelled from the spec: "the added/removed path lies under the watched
directory" — the path is strictly inside the directory, i.e. the directory
path followed by a separator is a prefix of the file path.  This is the
spec-side reading used to compare against the source's plain string-prefix
check. -/
def liesUnderDir (file dir : String) : Bool :=
  startsWithS file (dir ++ "/")

/-- Length of the leading alphanumeric run of a character list.  Used to
separate per-entry import statements from the fixed header imports. -/
def headAlnumRun (l : List Char) : Nat :=
  (l.takeWhile Char.isAlphanum).length

/-! ## String-level helper lemmas -/

theorem data_append (a b : String) : (a ++ b).data = a.data ++ b.data := rfl

theorem string_ext {a b : String} (h : a.data = b.data) : a = b := by
  cases a; cases b; simp_all

theorem isPrefixOf_append_self (l t : List Char) : l.isPrefixOf (l ++ t) = true := by
  induction l with
  | nil => simp [List.isPrefixOf]
  | cons a as ih => simp [List.isPrefixOf, ih]

theorem startsWithS_data_pre (s pre : String) (t : List Char)
    (h : s.data = pre.data ++ t) : startsWithS s pre = true := by
  unfold startsWithS
  rw [h]
  exact isPrefixOf_append_self _ _

theorem endsWithS_data_suffix (s suffix : String) (t : List Char)
    (h : s.data = t ++ suffix.data) : endsWithS s suffix = true := by
  unfold endsWithS
  rw [h, List.reverse_append]
  exact isPrefixOf_append_self _ _

theorem endsWithS_last_ne (s suffix : String) (c c' : Char) (t u : List Char)
    (hs : s.data = t ++ [c]) (hu : suffix.data = u ++ [c']) (hne : c' ≠ c) :
    endsWithS s suffix = false := by
  unfold endsWithS
  rw [hs, hu, List.reverse_append, List.reverse_append]
  simp [List.isPrefixOf, hne]

theorem takeWhile_append_all (p : Char → Bool) (l₁ l₂ : List Char)
    (h : ∀ c ∈ l₁, p c = true) : (l₁ ++ l₂).takeWhile p = l₁ ++ l₂.takeWhile p := by
  induction l₁ with
  | nil => simp
  | cons a t ih =>
    simp only [List.cons_append, List.takeWhile_cons]
    rw [h a (List.mem_cons_self a t), ih (fun c hc => h c (List.mem_cons_of_mem a hc))]
    simp

theorem filter_map_pos (p : String → Bool) (f : String → String) (l : List String)
    (h : ∀ n, p (f n) = true) : (l.map f).filter p = l.map f := by
  induction l with
  | nil => rfl
  | cons a t ih => simp [h, ih]

theorem filter_map_neg (p : String → Bool) (f : String → String) (l : List String)
    (h : ∀ n, p (f n) = false) : (l.map f).filter p = [] := by
  induction l with
  | nil => rfl
  | cons a t ih => simp [h, ih]

theorem double_inj (A B C : List Char) (u v : List Char)
    (h : A ++ (u ++ (B ++ (u ++ C))) = A ++ (v ++ (B ++ (v ++ C)))) : u = v := by
  have h1 := List.append_cancel_left h
  have hlen : u.length = v.length := by
    have h2 := congrArg List.length h1
    simp [List.length_append] at h2
    omega
  exact (List.append_inj h1 hlen).1

theorem startsWithS_head_ne (s pre : String) (c c' : Char) (ts ps : List Char)
    (hs : s.data = c :: ts) (hp : pre.data = c' :: ps) (hne : c' ≠ c) :
    startsWithS s pre = false := by
  unfold startsWithS
  rw [hs, hp]
  simp [List.isPrefixOf, hne]

theorem quote_data : ("\x27" : String).data = ['\''] := rfl

theorem store_data : ("Store" : String).data = ['S', 't', 'o', 'r', 'e'] := rfl

theorem stor_data : ("Stor" : String).data = ['S', 't', 'o', 'r'] := rfl

theorem storeComma_data : ("Store," : String).data = ['S', 't', 'o', 'r', 'e', ','] := rfl

theorem filter_singleton_pos (p : String → Bool) (x : String) (h : p x = true) :
    [x].filter p = [x] := by simp [h]

theorem filter_singleton_neg (p : String → Bool) (x : String) (h : p x = false) :
    [x].filter p = [] := by simp [h]

/-! ## Per-line classification lemmas -/

theorem starts_import_storeImport (rel n : String) :
    startsWithS (storeImportStmt rel n) "import" = true :=
  startsWithS_data_pre _ _ _ rfl

theorem starts_import_dtsImport (rel n : String) :
    startsWithS (dtsImportStmt rel n) "import" = true :=
  startsWithS_data_pre _ _ _ rfl

theorem starts_import_shared (rel : String) :
    startsWithS (sharedImportStmt rel) "import" = true :=
  startsWithS_data_pre _ _ _ rfl

theorem starts_import_dispatch (n : String) :
    startsWithS (dispatchTableLine n) "import" = false :=
  startsWithS_head_ne _ _ ' ' 'i' _ _ rfl rfl (by decide)

theorem starts_import_typeLine (n : String) :
    startsWithS (typeTableLine n) "import" = false :=
  startsWithS_head_ne _ _ ' ' 'i' _ _ rfl rfl (by decide)

theorem ends_storeComma_dispatch (n : String) :
    endsWithS (dispatchTableLine n) "Store," = true := by
  apply endsWithS_data_suffix _ _ ("    ".data ++ (n.data ++ (": ".data ++ n.data)))
  simp [dispatchTableLine, data_append, storeComma_data]

theorem ends_storeComma_storeImport (rel n : String) :
    endsWithS (storeImportStmt rel n) "Store," = false := by
  apply endsWithS_last_ne _ _ '\'' ','
      ("import ".data ++ (n.data ++ ("Store from \x27".data ++ (rel.data ++ ("/".data ++ n.data)))))
      ("Store".data)
  · simp [storeImportStmt, data_append, quote_data]
  · rfl
  · decide

theorem ends_storeComma_dtsImport (rel n : String) :
    endsWithS (dtsImportStmt rel n) "Store," = false := by
  apply endsWithS_last_ne _ _ '\'' ','
      ("import type ".data ++ (n.data ++ ("Store from \x27".data ++ (rel.data ++ ("/".data ++ n.data)))))
      ("Store".data)
  · simp [dtsImportStmt, data_append, quote_data]
  · rfl
  · decide

theorem ends_storeComma_shared (rel : String) :
    endsWithS (sharedImportStmt rel) "Store," = false := by
  apply endsWithS_last_ne _ _ '\'' ',' ("import store from \x27".data ++ rel.data) ("Store".data)
  · simp [sharedImportStmt, data_append, quote_data]
  · rfl
  · decide

theorem ends_storeComma_typeLine (n : String) :
    endsWithS (typeTableLine n) "Store," = false := by
  apply endsWithS_last_ne _ _ 'e' ','
      ("  ".data ++ (n.data ++ (": typeof ".data ++ (n.data ++ "Stor".data))))
      ("Store".data)
  · simp [typeTableLine, data_append, store_data, stor_data]
  · rfl
  · decide

theorem ends_store_typeLine (n : String) :
    endsWithS (typeTableLine n) "Store" = true := by
  apply endsWithS_data_suffix _ _ ("  ".data ++ (n.data ++ (": typeof ".data ++ n.data)))
  simp [typeTableLine, data_append, store_data]

theorem ends_store_storeImport (rel n : String) :
    endsWithS (storeImportStmt rel n) "Store" = false := by
  apply endsWithS_last_ne _ _ '\'' 'e'
      ("import ".data ++ (n.data ++ ("Store from \x27".data ++ (rel.data ++ ("/".data ++ n.data)))))
      ("Stor".data)
  · simp [storeImportStmt, data_append, quote_data]
  · rfl
  · decide

theorem ends_store_dtsImport (rel n : String) :
    endsWithS (dtsImportStmt rel n) "Store" = false := by
  apply endsWithS_last_ne _ _ '\'' 'e'
      ("import type ".data ++ (n.data ++ ("Store from \x27".data ++ (rel.data ++ ("/".data ++ n.data)))))
      ("Stor".data)
  · simp [dtsImportStmt, data_append, quote_data]
  · rfl
  · decide

theorem ends_store_shared (rel : String) :
    endsWithS (sharedImportStmt rel) "Store" = false := by
  apply endsWithS_last_ne _ _ '\'' 'e' ("import store from \x27".data ++ rel.data) ("Stor".data)
  · simp [sharedImportStmt, data_append, quote_data]
  · rfl
  · decide

theorem ends_store_dispatch (n : String) :
    endsWithS (dispatchTableLine n) "Store" = false := by
  apply endsWithS_last_ne _ _ ',' 'e'
      ("    ".data ++ (n.data ++ (": ".data ++ (n.data ++ "Store".data))))
      ("Stor".data)
  · simp [dispatchTableLine, data_append, store_data, storeComma_data]
  · rfl
  · decide

/-! ## Artifact section lemmas -/

theorem importStmts_js_eq (names : List String) (rel : String) :
    importStmtsOf (jsContentLines names rel)
      = "import \x7b storeToRefs \x7d from \x27pinia\x27"
          :: (names.map (storeImportStmt rel) ++ [sharedImportStmt rel]) := by
  unfold importStmtsOf jsContentLines
  simp only [List.filter_append]
  rw [filter_map_pos _ _ _ (starts_import_storeImport rel),
      filter_map_neg _ _ _ starts_import_dispatch,
      filter_singleton_pos (fun l => startsWithS l "import") (sharedImportStmt rel)
        (starts_import_shared rel),
      (by decide : jsHead.filter (fun l => startsWithS l "import")
        = ["import \x7b storeToRefs \x7d from \x27pinia\x27"]),
      (by decide : (["", ""] : List String).filter (fun l => startsWithS l "import") = []),
      (by decide : jsFnBlock.filter (fun l => startsWithS l "import") = []),
      (by decide : jsTail.filter (fun l => startsWithS l "import") = [])]
  simp

theorem importStmts_dts_eq (names : List String) (rel : String) :
    importStmtsOf (dtsContentLines names rel)
      = "import type \x7b ToRef, UnwrapRef \x7d from \x27vue\x27"
          :: "import type \x7b StoreDefinition \x7d from \x27pinia\x27"
          :: names.map (dtsImportStmt rel) := by
  unfold importStmtsOf dtsContentLines
  simp only [List.filter_append]
  rw [filter_map_pos _ _ _ (starts_import_dtsImport rel),
      filter_map_neg _ _ _ starts_import_typeLine,
      (by decide : dtsHead.filter (fun l => startsWithS l "import")
        = ["import type \x7b ToRef, UnwrapRef \x7d from \x27vue\x27",
           "import type \x7b StoreDefinition \x7d from \x27pinia\x27"]),
      (by decide : dtsMid.filter (fun l => startsWithS l "import") = []),
      (by decide : dtsTail.filter (fun l => startsWithS l "import") = [])]
  simp

theorem importStmts_ts_eq (names : List String) (rel : String) :
    importStmtsOf (tsContentLines names rel)
      = "import \x7b storeToRefs \x7d from \x27pinia\x27"
          :: "import type \x7b ToRef, UnwrapRef \x7d from \x27vue\x27"
          :: "import type \x7b StoreDefinition \x7d from \x27pinia\x27"
          :: (names.map (storeImportStmt rel) ++ [sharedImportStmt rel]) := by
  unfold importStmtsOf tsContentLines
  simp only [List.filter_append]
  rw [filter_map_pos _ _ _ (starts_import_storeImport rel),
      filter_map_neg _ _ _ starts_import_typeLine,
      filter_map_neg _ _ _ starts_import_dispatch,
      filter_singleton_pos (fun l => startsWithS l "import") (sharedImportStmt rel)
        (starts_import_shared rel),
      (by decide : tsHead.filter (fun l => startsWithS l "import")
        = ["import \x7b storeToRefs \x7d from \x27pinia\x27",
           "import type \x7b ToRef, UnwrapRef \x7d from \x27vue\x27",
           "import type \x7b StoreDefinition \x7d from \x27pinia\x27"]),
      (by decide : (["", ""] : List String).filter (fun l => startsWithS l "import") = []),
      (by decide : tsTypeBlock.filter (fun l => startsWithS l "import") = []),
      (by decide : tsFnBlock.filter (fun l => startsWithS l "import") = []),
      (by decide : tsTail.filter (fun l => startsWithS l "import") = [])]
  simp

theorem dispatch_js_eq (names : List String) (rel : String) :
    dispatchEntriesOf (jsContentLines names rel) = names.map dispatchTableLine := by
  unfold dispatchEntriesOf jsContentLines
  simp only [List.filter_append]
  rw [filter_map_neg _ _ _ (ends_storeComma_storeImport rel),
      filter_map_pos _ _ _ ends_storeComma_dispatch,
      filter_singleton_neg (fun l => endsWithS l "Store,") (sharedImportStmt rel)
        (ends_storeComma_shared rel),
      (by decide : jsHead.filter (fun l => endsWithS l "Store,") = []),
      (by decide : (["", ""] : List String).filter (fun l => endsWithS l "Store,") = []),
      (by decide : jsFnBlock.filter (fun l => endsWithS l "Store,") = []),
      (by decide : jsTail.filter (fun l => endsWithS l "Store,") = [])]
  simp

theorem dispatch_ts_eq (names : List String) (rel : String) :
    dispatchEntriesOf (tsContentLines names rel) = names.map dispatchTableLine := by
  unfold dispatchEntriesOf tsContentLines
  simp only [List.filter_append]
  rw [filter_map_neg _ _ _ (ends_storeComma_storeImport rel),
      filter_map_neg _ _ _ ends_storeComma_typeLine,
      filter_map_pos _ _ _ ends_storeComma_dispatch,
      filter_singleton_neg (fun l => endsWithS l "Store,") (sharedImportStmt rel)
        (ends_storeComma_shared rel),
      (by decide : tsHead.filter (fun l => endsWithS l "Store,") = []),
      (by decide : (["", ""] : List String).filter (fun l => endsWithS l "Store,") = []),
      (by decide : tsTypeBlock.filter (fun l => endsWithS l "Store,") = []),
      (by decide : tsFnBlock.filter (fun l => endsWithS l "Store,") = []),
      (by decide : tsTail.filter (fun l => endsWithS l "Store,") = [])]
  simp

theorem typeEntries_ts_eq (names : List String) (rel : String) :
    typeEntriesOf (tsContentLines names rel) = names.map typeTableLine := by
  unfold typeEntriesOf tsContentLines
  simp only [List.filter_append]
  rw [filter_map_neg _ _ _ (ends_store_storeImport rel),
      filter_map_pos _ _ _ ends_store_typeLine,
      filter_map_neg _ _ _ ends_store_dispatch,
      filter_singleton_neg (fun l => endsWithS l "Store") (sharedImportStmt rel)
        (ends_store_shared rel),
      (by decide : tsHead.filter (fun l => endsWithS l "Store") = []),
      (by decide : (["", ""] : List String).filter (fun l => endsWithS l "Store") = []),
      (by decide : tsTypeBlock.filter (fun l => endsWithS l "Store") = []),
      (by decide : tsFnBlock.filter (fun l => endsWithS l "Store") = []),
      (by decide : tsTail.filter (fun l => endsWithS l "Store") = [])]
  simp

theorem typeEntries_dts_eq (names : List String) (rel : String) :
    typeEntriesOf (dtsContentLines names rel) = names.map typeTableLine := by
  unfold typeEntriesOf dtsContentLines
  simp only [List.filter_append]
  rw [filter_map_neg _ _ _ (ends_store_dtsImport rel),
      filter_map_pos _ _ _ ends_store_typeLine,
      (by decide : dtsHead.filter (fun l => endsWithS l "Store") = []),
      (by decide : dtsMid.filter (fun l => endsWithS l "Store") = []),
      (by decide : dtsTail.filter (fun l => endsWithS l "Store") = [])]
  simp

/-! ## Injectivity of the per-entry line builders -/

theorem storeImportStmt_inj (rel : String) : Function.Injective (storeImportStmt rel) := by
  intro u v h
  have h' : ("import ".data)
        ++ (u.data ++ (("Store from \x27".data ++ (rel.data ++ "/".data)) ++ (u.data ++ "\x27".data)))
      = ("import ".data)
        ++ (v.data ++ (("Store from \x27".data ++ (rel.data ++ "/".data)) ++ (v.data ++ "\x27".data))) := by
    have h0 := congrArg String.data h
    simp only [storeImportStmt, data_append, List.append_assoc] at h0 ⊢
    exact h0
  exact string_ext (double_inj _ _ _ _ _ h')

theorem dtsImportStmt_inj (rel : String) : Function.Injective (dtsImportStmt rel) := by
  intro u v h
  have h' : ("import type ".data)
        ++ (u.data ++ (("Store from \x27".data ++ (rel.data ++ "/".data)) ++ (u.data ++ "\x27".data)))
      = ("import type ".data)
        ++ (v.data ++ (("Store from \x27".data ++ (rel.data ++ "/".data)) ++ (v.data ++ "\x27".data))) := by
    have h0 := congrArg String.data h
    simp only [dtsImportStmt, data_append, List.append_assoc] at h0 ⊢
    exact h0
  exact string_ext (double_inj _ _ _ _ _ h')

theorem dispatchTableLine_inj : Function.Injective dispatchTableLine := by
  intro u v h
  have h' : ("    ".data) ++ (u.data ++ (": ".data ++ (u.data ++ "Store,".data)))
      = ("    ".data) ++ (v.data ++ (": ".data ++ (v.data ++ "Store,".data))) := by
    have h0 := congrArg String.data h
    simp only [dispatchTableLine, data_append, List.append_assoc] at h0 ⊢
    exact h0
  exact string_ext (double_inj _ _ _ _ _ h')

theorem typeTableLine_inj : Function.Injective typeTableLine := by
  intro u v h
  have h' : ("  ".data) ++ (u.data ++ (": typeof ".data ++ (u.data ++ "Store".data)))
      = ("  ".data) ++ (v.data ++ (": typeof ".data ++ (v.data ++ "Store".data))) := by
    have h0 := congrArg String.data h
    simp only [typeTableLine, data_append, List.append_assoc] at h0 ⊢
    exact h0
  exact string_ext (double_inj _ _ _ _ _ h')

theorem count_map_inj_one {f : String → String} (hf : Function.Injective f)
    (names : List String) (n : String) (hd : names.Nodup) (hm : n ∈ names) :
    (names.map f).count (f n) = 1 := by
  rw [List.count_map_of_injective _ _ hf]
  exact List.count_eq_one_of_mem hd hm

/-! ## Disequalities between per-entry lines and fixed import lines -/

theorem run7_storeImport (rel n : String) (hn : ∀ c ∈ n.data, c.isAlphanum = true) :
    headAlnumRun ((storeImportStmt rel n).data.drop 7) = n.data.length + 5 := by
  show headAlnumRun
      (n.data ++ ('S' :: 't' :: 'o' :: 'r' :: 'e' :: ' ' :: 'f' :: 'r' :: 'o' :: 'm' :: ' ' :: '\'' ::
        (rel.data ++ ('/' :: (n.data ++ ['\''])))))
      = n.data.length + 5
  unfold headAlnumRun
  rw [takeWhile_append_all Char.isAlphanum n.data _ hn]
  simp [List.takeWhile]

theorem run12_dtsImport (rel n : String) (hn : ∀ c ∈ n.data, c.isAlphanum = true) :
    headAlnumRun ((dtsImportStmt rel n).data.drop 12) = n.data.length + 5 := by
  show headAlnumRun
      (n.data ++ ('S' :: 't' :: 'o' :: 'r' :: 'e' :: ' ' :: 'f' :: 'r' :: 'o' :: 'm' :: ' ' :: '\'' ::
        (rel.data ++ ('/' :: (n.data ++ ['\''])))))
      = n.data.length + 5
  unfold headAlnumRun
  rw [takeWhile_append_all Char.isAlphanum n.data _ hn]
  simp [List.takeWhile]

theorem storeImport_ne_fixed (rel n : String) (hn : ∀ c ∈ n.data, c.isAlphanum = true)
    (s : String) (hs : headAlnumRun (s.data.drop 7) < 5) : storeImportStmt rel n ≠ s := by
  intro he
  have h1 := run7_storeImport rel n hn
  rw [he] at h1
  omega

theorem dtsImport_ne_fixed (rel n : String) (hn : ∀ c ∈ n.data, c.isAlphanum = true)
    (s : String) (hs : headAlnumRun (s.data.drop 12) < 5) : dtsImportStmt rel n ≠ s := by
  intro he
  have h1 := run12_dtsImport rel n hn
  rw [he] at h1
  omega

theorem storeImport_ne_shared (rel n : String) :
    storeImportStmt rel n ≠ sharedImportStmt rel := by
  intro he
  have e1 : ("import " : String).data.length = 7 := rfl
  have e2 : ("Store from \x27" : String).data.length = 12 := rfl
  have e3 : ("/" : String).data.length = 1 := rfl
  have e4 : ("\x27" : String).data.length = 1 := rfl
  have e5 : ("import store from \x27" : String).data.length = 19 := rfl
  have h0 := congrArg (fun s => s.data.length) he
  simp only [storeImportStmt, sharedImportStmt, data_append, List.length_append,
    e1, e2, e3, e4, e5] at h0
  omega

theorem dtsImport_ne_shared (rel n : String) :
    dtsImportStmt rel n ≠ sharedImportStmt rel := by
  intro he
  have e1 : ("import type " : String).data.length = 12 := rfl
  have e2 : ("Store from \x27" : String).data.length = 12 := rfl
  have e3 : ("/" : String).data.length = 1 := rfl
  have e4 : ("\x27" : String).data.length = 1 := rfl
  have e5 : ("import store from \x27" : String).data.length = 19 := rfl
  have h0 := congrArg (fun s => s.data.length) he
  simp only [dtsImportStmt, sharedImportStmt, data_append, List.length_append,
    e1, e2, e3, e4, e5] at h0
  omega

theorem shared_ne_header_vue (rel : String) :
    sharedImportStmt rel ≠ "import type \x7b ToRef, UnwrapRef \x7d from \x27vue\x27" := by
  intro he
  have h0 : (sharedImportStmt rel).data.get? 7
      = ("import type \x7b ToRef, UnwrapRef \x7d from \x27vue\x27" : String).data.get? 7 := by
    rw [he]
  have e1 : (sharedImportStmt rel).data.get? 7 = some 's' := rfl
  rw [e1] at h0
  exact absurd h0 (by decide)

theorem shared_ne_header_pinia (rel : String) :
    sharedImportStmt rel ≠ "import type \x7b StoreDefinition \x7d from \x27pinia\x27" := by
  intro he
  have h0 : (sharedImportStmt rel).data.get? 7
      = ("import type \x7b StoreDefinition \x7d from \x27pinia\x27" : String).data.get? 7 := by
    rw [he]
  have e1 : (sharedImportStmt rel).data.get? 7 = some 's' := rfl
  rw [e1] at h0
  exact absurd h0 (by decide)

/-! ## Extension and prefix helper lemmas -/

theorem isPrefixOf_one (c : Char) (l : List Char) (h : List.isPrefixOf [c] l = true) :
    ∃ u, l = c :: u := by
  match l with
  | [] => simp [List.isPrefixOf] at h
  | a :: u =>
    simp only [List.isPrefixOf, Bool.and_eq_true, beq_iff_eq] at h
    exact ⟨u, by rw [h.1]⟩

theorem isPrefixOf_three (a b c : Char) (l : List Char)
    (h : List.isPrefixOf [a, b, c] l = true) : ∃ t, l = a :: b :: c :: t := by
  match l with
  | [] => simp [List.isPrefixOf] at h
  | [x] => simp [List.isPrefixOf] at h
  | [x, y] => simp [List.isPrefixOf] at h
  | x :: y :: z :: t =>
    simp only [List.isPrefixOf, Bool.and_eq_true, beq_iff_eq] at h
    obtain ⟨h1, h2, h3⟩ := h
    exact ⟨t, by rw [h1, h2, h3.1]⟩

theorem ends_ts_not_js (p : String) (h : endsWithS p ".ts" = true) :
    endsWithS p ".js" = false := by
  unfold endsWithS at h ⊢
  obtain ⟨t, ht⟩ := isPrefixOf_three 's' 't' '.' p.data.reverse (by exact h)
  rw [ht]
  simp [List.isPrefixOf]

theorem ends_js_not_ts (p : String) (h : endsWithS p ".js" = true) :
    endsWithS p ".ts" = false := by
  unfold endsWithS at h ⊢
  obtain ⟨t, ht⟩ := isPrefixOf_three 's' 'j' '.' p.data.reverse (by exact h)
  rw [ht]
  simp [List.isPrefixOf]

theorem replaceSuffix_endsWith (s suffix rep : String) (h : endsWithS s suffix = true) :
    endsWithS (replaceSuffix s suffix rep) rep = true := by
  unfold replaceSuffix
  rw [h]
  simp only [if_true]
  exact endsWithS_data_suffix _ _ _ rfl

theorem replaceBackslashes_sound (s : String) :
    ∀ c ∈ (replaceBackslashes s).data, c ≠ '\\' := by
  intro c hc
  have hc' : c ∈ s.data.map (fun c => if c = '\\' then '/' else c) := hc
  simp only [List.mem_map] at hc'
  obtain ⟨c₀, _, hce⟩ := hc'
  by_cases h0 : c₀ = '\\'
  · rw [← hce]
    simp [h0]
  · rw [← hce]
    simp [h0]

/-! ## Effect-trace helper lemmas -/

theorem writtenContents_cons_mkdir (d : String) (ops : List FsOp) :
    writtenContents (FsOp.mkdirRec d :: ops) = writtenContents ops := by
  simp [writtenContents]

/-! ## Claim theorems -/

/-- Claim C5: the output kind is resolved deterministically for every
configuration — an explicitly supplied `outputType` is used as-is; otherwise
the kind is `js` if the configured output path ends in `.js`, `ts` if it
ends in `.ts`, and `ts` when neither extension is present. -/
theorem claim_c5_output_kind_resolution (opt : Option OutputType) (o : String) :
    (∀ t, opt = some t → detectOutputType opt o = t)
    ∧ (opt = none → endsWithS o ".js" = true → detectOutputType opt o = OutputType.js)
    ∧ (opt = none → endsWithS o ".ts" = true → detectOutputType opt o = OutputType.ts)
    ∧ (opt = none → endsWithS o ".js" = false → endsWithS o ".ts" = false →
        detectOutputType opt o = OutputType.ts) := by
  refine ⟨?_, ?_, ?_, ?_⟩
  · intro t ht
    subst ht
    rfl
  · intro ho hjs
    subst ho
    simp [detectOutputType, hjs]
  · intro ho hts
    subst ho
    simp [detectOutputType, ends_ts_not_js o hts, hts]
  · intro ho hjs hts
    subst ho
    simp [detectOutputType, hjs, hts]

/-- Witness for C5: concrete instances of each branch of the resolution. -/
theorem claim_c5_witness :
    detectOutputType (some OutputType.js) "a.ts" = OutputType.js
    ∧ detectOutputType none "b.js" = OutputType.js
    ∧ detectOutputType none "c.ts" = OutputType.ts
    ∧ detectOutputType none "d" = OutputType.ts :=
  ⟨(claim_c5_output_kind_resolution (some OutputType.js) "a.ts").1 OutputType.js rfl,
   (claim_c5_output_kind_resolution none "b.js").2.1 rfl (by decide),
   (claim_c5_output_kind_resolution none "c.ts").2.2.1 rfl (by decide),
   (claim_c5_output_kind_resolution none "d").2.2.2 rfl (by decide) (by decide)⟩

/-- Claim C2 counterexample: with the configured output path
`src/helper/use-store` (no extension) the resolved kind defaults to
typescript, yet the resolved output path is left without the `.ts`
extension, contradicting "ends in `.ts` whenever the resolved output kind is
typescript, regardless of the extension (or absence of one)". -/
theorem claim_c2_counterexample :
    detectOutputType none "src/helper/use-store" = OutputType.ts
    ∧ outputPathOf OutputType.ts (resolvePath "/proj" "src/helper/use-store")
        = "/proj/src/helper/use-store"
    ∧ endsWithS "/proj/src/helper/use-store" ".ts" = false := by
  refine ⟨by decide, by decide, by decide⟩

/-- Claim C2 (amended): when the configured output path ends in `.ts` or in
`.js`, the resolved output path ends in `.ts` for kind typescript and in
`.js` for kind javascript; a path with neither extension is left
unchanged. -/
theorem claim_c2_output_extension (p : String)
    (h : endsWithS p ".ts" = true ∨ endsWithS p ".js" = true) :
    endsWithS (outputPathOf OutputType.ts p) ".ts" = true
    ∧ endsWithS (outputPathOf OutputType.js p) ".js" = true := by
  cases h with
  | inl hts =>
    have hjs := ends_ts_not_js p hts
    constructor
    · simp [outputPathOf, hts]
    · simp only [outputPathOf, hjs, Bool.false_eq_true, if_false]
      exact replaceSuffix_endsWith _ _ _ hts
  | inr hjs =>
    have hts := ends_js_not_ts p hjs
    constructor
    · simp only [outputPathOf, hts, Bool.false_eq_true, if_false]
      exact replaceSuffix_endsWith _ _ _ hjs
    · simp [outputPathOf, hjs]

/-- Witness for the amended C2 at the configured path `a.js`. -/
theorem claim_c2_witness :
    endsWithS (outputPathOf OutputType.ts "a.js") ".ts" = true
    ∧ endsWithS (outputPathOf OutputType.js "a.js") ".js" = true :=
  claim_c2_output_extension "a.js" (Or.inr (by decide))

/-- Claim C4: for every raw `relative()` result, the embedded import prefix
contains no backslash separator, begins with a `.`, and is obtained by
prepending `./` exactly when the slash-normalized relative path does not
already start with `.`. -/
theorem claim_c4_relative_import_marker (raw : String) :
    (relativeStorePath raw).data.head? = some '.'
    ∧ (∀ c ∈ (relativeStorePath raw).data, c ≠ '\\')
    ∧ (startsWithS (replaceBackslashes raw) "." = false →
        relativeStorePath raw = "./" ++ replaceBackslashes raw) := by
  unfold relativeStorePath
  cases hb : startsWithS (replaceBackslashes raw) "." with
  | true =>
    simp only [hb, if_true]
    obtain ⟨u, hu⟩ := isPrefixOf_one '.' (replaceBackslashes raw).data (by exact hb)
    refine ⟨?_, replaceBackslashes_sound raw, ?_⟩
    · rw [hu]
      rfl
    · intro hfalse
      simp at hfalse
  | false =>
    simp only [hb, Bool.false_eq_true, if_false]
    refine ⟨rfl, ?_, fun _ => trivial⟩
    intro c hc
    have hc' : c ∈ '.' :: '/' :: (replaceBackslashes raw).data := hc
    simp only [List.mem_cons] at hc'
    rcases hc' with h1 | h2 | h3
    · rw [h1]; decide
    · rw [h2]; decide
    · exact replaceBackslashes_sound raw c h3

/-- Witness for C4 at the Windows-style raw relative path `a\b`. -/
theorem claim_c4_witness :
    startsWithS (replaceBackslashes "a\\b") "." = false
    ∧ (relativeStorePath "a\\b").data.head? = some '.'
    ∧ relativeStorePath "a\\b" = "./" ++ replaceBackslashes "a\\b" :=
  ⟨by decide, (claim_c4_relative_import_marker "a\\b").1,
   (claim_c4_relative_import_marker "a\\b").2.2 (by decide)⟩

/-- Claim C3: when the store directory does not exist at enumeration time
(the `readdir` listing is `none`), the generation run propagates a
directory-not-found error, performs no file write, and leaves every
previously existing file byte-identical. -/
theorem claim_c3_dir_not_found (root : String) (opts : Options) (filterFn : String → Bool)
    (rawRel : String) (listing : Option (List String)) (h : listing = none) :
    (generateConfigFiles root opts filterFn rawRel listing).2 = some GenError.dirNotFound
    ∧ (∀ op ∈ (generateConfigFiles root opts filterFn rawRel listing).1, isWriteOp op = false)
    ∧ (∀ st : FileState, applyFsOps st (generateConfigFiles root opts filterFn rawRel listing).1 = st) := by
  subst h
  refine ⟨rfl, ?_, ?_⟩
  · intro op hop
    have hop' : op = FsOp.mkdirRec (dirnameS (outputPathOf
        (detectOutputType opts.outputType opts.output) (resolvePath root opts.output))) := by
      simpa [generateConfigFiles] using hop
    rw [hop']
    rfl
  · intro st
    rfl

/-- Witness for C3: a concrete failed run propagates the error and does not
change a sample prior file state. -/
theorem claim_c3_witness :
    (generateConfigFiles "/proj" defaultOptions (fun _ => true) "../store" none).2
        = some GenError.dirNotFound
    ∧ applyFsOps sampleFileState
        (generateConfigFiles "/proj" defaultOptions (fun _ => true) "../store" none).1
        = sampleFileState :=
  ⟨(claim_c3_dir_not_found "/proj" defaultOptions (fun _ => true) "../store" none rfl).1,
   (claim_c3_dir_not_found "/proj" defaultOptions (fun _ => true) "../store" none rfl).2.2
     sampleFileState⟩

/-- Claim C10: every generation run performs the recursive creation of the
output directory as its first file-system operation, before the enumeration
is consulted; a run that fails because the listing is missing has the
directory creation as its only operation. -/
theorem claim_c10_mkdir_first (root : String) (opts : Options) (filterFn : String → Bool)
    (rawRel : String) (listing : Option (List String)) :
    (generateConfigFiles root opts filterFn rawRel listing).1.head?
        = some (FsOp.mkdirRec (dirnameS (outputPathOf
            (detectOutputType opts.outputType opts.output) (resolvePath root opts.output))))
    ∧ (listing = none →
        (generateConfigFiles root opts filterFn rawRel listing).1
          = [FsOp.mkdirRec (dirnameS (outputPathOf
              (detectOutputType opts.outputType opts.output) (resolvePath root opts.output)))]) := by
  constructor
  · cases listing <;> rfl
  · intro h
    subst h
    rfl

/-- Witness for C10: the failed run on the default options creates exactly
the output directory. -/
theorem claim_c10_witness :
    (generateConfigFiles "/proj" defaultOptions (fun _ => true) "../store" none).1
      = [FsOp.mkdirRec "/proj/src/helper"] := by
  have h := (claim_c10_mkdir_first "/proj" defaultOptions (fun _ => true) "../store" none).2 rfl
  rw [h]
  decide

/-- Claim C9: the written artifact contents are a deterministic function of
the enumerated store names, the relative import prefix and the output kind —
two runs agreeing on those three produce byte-identical contents, in
particular two consecutive runs over an unchanged directory listing. -/
theorem claim_c9_deterministic (root₁ root₂ : String) (opts₁ opts₂ : Options)
    (f₁ f₂ : String → Bool) (raw₁ raw₂ : String) (l₁ l₂ : List String)
    (hn : storeNamesOf (resolvePath root₁ opts₁.storeDir) f₁ l₁
        = storeNamesOf (resolvePath root₂ opts₂.storeDir) f₂ l₂)
    (hr : relativeStorePath raw₁ = relativeStorePath raw₂)
    (hk : detectOutputType opts₁.outputType opts₁.output
        = detectOutputType opts₂.outputType opts₂.output) :
    writtenContents (generateConfigFiles root₁ opts₁ f₁ raw₁ (some l₁)).1
      = writtenContents (generateConfigFiles root₂ opts₂ f₂ raw₂ (some l₂)).1 := by
  simp only [generateConfigFiles, writtenContents_cons_mkdir]
  rw [← hn, ← hr, ← hk]
  cases detectOutputType opts₁.outputType opts₁.output <;> simp [emittedOps, writtenContents]

/-- Witness for C9: two runs whose listings differ (`a.ts` versus `a.js`)
but which enumerate the same identifier list produce identical contents. -/
theorem claim_c9_witness :
    storeNamesOf (resolvePath "/proj" defaultOptions.storeDir) (fun _ => true) ["a.ts"]
        = storeNamesOf (resolvePath "/other" defaultOptions.storeDir) (fun _ => true) ["a.js"]
    ∧ writtenContents
          (generateConfigFiles "/proj" defaultOptions (fun _ => true) "../store" (some ["a.ts"])).1
        = writtenContents
          (generateConfigFiles "/other" defaultOptions (fun _ => true) "../store" (some ["a.js"])).1 :=
  ⟨by decide,
   claim_c9_deterministic "/proj" "/other" defaultOptions defaultOptions
     (fun _ => true) (fun _ => true) "../store" "../store" ["a.ts"] ["a.js"]
     (by decide) rfl rfl⟩

/-- Claim C8: a run over an existing store directory in which no entry
survives filtering succeeds, writes the artifacts for the empty identifier
list, and those artifacts have an empty dispatch table and an empty
lookup-table type. -/
theorem claim_c8_empty_enumeration (root : String) (opts : Options) (filterFn : String → Bool)
    (rawRel : String) (entries : List String)
    (h : storeNamesOf (resolvePath root opts.storeDir) filterFn entries = []) :
    (generateConfigFiles root opts filterFn rawRel (some entries)).2 = none
    ∧ writtenContents (generateConfigFiles root opts filterFn rawRel (some entries)).1
        = (match detectOutputType opts.outputType opts.output with
           | OutputType.ts => [tsContent [] (relativeStorePath rawRel)]
           | OutputType.js => [jsContent [] (relativeStorePath rawRel),
                               dtsContent [] (relativeStorePath rawRel)])
    ∧ dispatchEntriesOf (tsContentLines [] (relativeStorePath rawRel)) = []
    ∧ typeEntriesOf (tsContentLines [] (relativeStorePath rawRel)) = []
    ∧ dispatchEntriesOf (jsContentLines [] (relativeStorePath rawRel)) = []
    ∧ typeEntriesOf (dtsContentLines [] (relativeStorePath rawRel)) = [] := by
  refine ⟨rfl, ?_, ?_, ?_, ?_, ?_⟩
  · simp only [generateConfigFiles, writtenContents_cons_mkdir, h]
    cases detectOutputType opts.outputType opts.output <;> simp [emittedOps, writtenContents]
  · simpa using dispatch_ts_eq [] (relativeStorePath rawRel)
  · simpa using typeEntries_ts_eq [] (relativeStorePath rawRel)
  · simpa using dispatch_js_eq [] (relativeStorePath rawRel)
  · simpa using typeEntries_dts_eq [] (relativeStorePath rawRel)

/-- Witness for C8: a directory whose only entry `index.ts` is rejected by
the filter yields a successful run writing the empty-table artifact. -/
theorem claim_c8_witness :
    (generateConfigFiles "/proj" defaultOptions (fun s => !(endsWithS s "index.ts")) "../store"
        (some ["index.ts"])).2 = none
    ∧ writtenContents (generateConfigFiles "/proj" defaultOptions
          (fun s => !(endsWithS s "index.ts")) "../store" (some ["index.ts"])).1
        = [tsContent [] (relativeStorePath "../store")]
    ∧ dispatchEntriesOf (tsContentLines [] (relativeStorePath "../store")) = [] := by
  have h := claim_c8_empty_enumeration "/proj" defaultOptions
    (fun s => !(endsWithS s "index.ts")) "../store" ["index.ts"] (by decide)
  exact ⟨h.1, h.2.1, h.2.2.1⟩

/-- Claim C7 counterexample: an `add` event for a file inside the sibling
directory `storeBackup` — a path that does not lie under the watched store
directory — still schedules a regeneration, because the source guards with a
plain string-prefix test. -/
theorem claim_c7_counterexample :
    watcherSchedules "/proj/src/store" WatchEvent.add "/proj/src/storeBackup/a.ts" = true
    ∧ liesUnderDir "/proj/src/storeBackup/a.ts" "/proj/src/store" = false := by
  refine ⟨by decide, by decide⟩

/-- Claim C7 (amended): a regeneration is scheduled exactly for `add` and
`unlink` events whose path has the watched root as a string prefix and ends
in `.ts` or `.js`; `change` events never schedule. -/
theorem claim_c7_watch_guard (watchedRoot : String) (ev : WatchEvent) (file : String) :
    watcherSchedules watchedRoot ev file = true
      ↔ (ev ≠ WatchEvent.change ∧ startsWithS file watchedRoot = true
          ∧ (endsWithS file ".ts" = true ∨ endsWithS file ".js" = true)) := by
  cases ev <;>
    cases hs : startsWithS file watchedRoot <;>
      cases hts : endsWithS file ".ts" <;>
        cases hjs : endsWithS file ".js" <;>
          simp [watcherSchedules, hs, hts, hjs]

/-- Claim C6 counterexample: in the split-mode declaration artifact for one
store entry `user`, the import statements end with the per-entry type import
and the shared-instance import does not occur at all, so the shared import
is not the last import statement of every artifact. -/
theorem claim_c6_counterexample :
    importStmtsOf (dtsContentLines ["user"] "./store")
        = ["import type \x7b ToRef, UnwrapRef \x7d from \x27vue\x27",
           "import type \x7b StoreDefinition \x7d from \x27pinia\x27",
           "import type userStore from \x27./store/user\x27"]
    ∧ sharedImportStmt "./store" ∉ importStmtsOf (dtsContentLines ["user"] "./store") := by
  refine ⟨by decide, by decide⟩

/-- Claim C6 (amended): in both implementation artifacts the per-entry
store imports appear in enumeration order and the shared-instance import is
the last import statement; in the declaration artifact the per-entry type
store imports appear in enumeration order after the two fixed type imports,
and no shared-instance import is present. -/
theorem claim_c6_import_order (names : List String) (rel : String) :
    importStmtsOf (tsContentLines names rel)
        = "import \x7b storeToRefs \x7d from \x27pinia\x27"
            :: "import type \x7b ToRef, UnwrapRef \x7d from \x27vue\x27"
            :: "import type \x7b StoreDefinition \x7d from \x27pinia\x27"
            :: (names.map (storeImportStmt rel) ++ [sharedImportStmt rel])
    ∧ importStmtsOf (jsContentLines names rel)
        = "import \x7b storeToRefs \x7d from \x27pinia\x27"
            :: (names.map (storeImportStmt rel) ++ [sharedImportStmt rel])
    ∧ importStmtsOf (dtsContentLines names rel)
        = "import type \x7b ToRef, UnwrapRef \x7d from \x27vue\x27"
            :: "import type \x7b StoreDefinition \x7d from \x27pinia\x27"
            :: names.map (dtsImportStmt rel)
    ∧ sharedImportStmt rel ∉ importStmtsOf (dtsContentLines names rel) := by
  refine ⟨importStmts_ts_eq names rel, importStmts_js_eq names rel,
    importStmts_dts_eq names rel, ?_⟩
  rw [importStmts_dts_eq]
  intro hmem
  simp only [List.mem_cons, List.mem_map] at hmem
  rcases hmem with h1 | h2 | h3
  · exact shared_ne_header_vue rel h1
  · exact shared_ne_header_pinia rel h2
  · obtain ⟨n, _, hn⟩ := h3
    exact dtsImport_ne_shared rel n hn

/-- Claim C1 counterexample: the enumeration does not deduplicate — the
surviving files `a.ts` and `a.js` yield the identifier `a` twice, and the
dispatch-table entry for `a` appears twice in the combined artifact. -/
theorem claim_c1_counterexample :
    storeNamesOf "/proj/src/store" (fun _ => true) ["a.ts", "a.js"] = ["a", "a"]
    ∧ (dispatchEntriesOf (tsContentLines ["a", "a"] "./store")).count
        (dispatchTableLine "a") = 2 := by
  refine ⟨by decide, by decide⟩

/-- Claim C1 (amended): the enumeration performs no deduplication, but when
the enumerated identifier list is duplicate-free (and identifiers are
alphanumeric, as the data model assumes), each identifier's import
statement, dispatch-table entry and lookup-table entry occur exactly once in
every artifact that contains the corresponding section. -/
theorem claim_c1_identifier_once (names : List String) (rel : String) (n : String)
    (hd : names.Nodup) (hm : n ∈ names)
    (hal : ∀ m ∈ names, ∀ c ∈ m.data, c.isAlphanum = true) :
    (importStmtsOf (tsContentLines names rel)).count (storeImportStmt rel n) = 1
    ∧ (typeEntriesOf (tsContentLines names rel)).count (typeTableLine n) = 1
    ∧ (dispatchEntriesOf (tsContentLines names rel)).count (dispatchTableLine n) = 1
    ∧ (importStmtsOf (jsContentLines names rel)).count (storeImportStmt rel n) = 1
    ∧ (dispatchEntriesOf (jsContentLines names rel)).count (dispatchTableLine n) = 1
    ∧ (importStmtsOf (dtsContentLines names rel)).count (dtsImportStmt rel n) = 1
    ∧ (typeEntriesOf (dtsContentLines names rel)).count (typeTableLine n) = 1 := by
  have haln := hal n hm
  have hne1 : storeImportStmt rel n ≠ "import \x7b storeToRefs \x7d from \x27pinia\x27" :=
    storeImport_ne_fixed rel n haln _ (by decide)
  have hne2 : storeImportStmt rel n ≠ "import type \x7b ToRef, UnwrapRef \x7d from \x27vue\x27" :=
    storeImport_ne_fixed rel n haln _ (by decide)
  have hne3 : storeImportStmt rel n ≠ "import type \x7b StoreDefinition \x7d from \x27pinia\x27" :=
    storeImport_ne_fixed rel n haln _ (by decide)
  have hnes : storeImportStmt rel n ≠ sharedImportStmt rel := storeImport_ne_shared rel n
  have hdne1 : dtsImportStmt rel n ≠ "import type \x7b ToRef, UnwrapRef \x7d from \x27vue\x27" :=
    dtsImport_ne_fixed rel n haln _ (by decide)
  have hdne2 : dtsImportStmt rel n ≠ "import type \x7b StoreDefinition \x7d from \x27pinia\x27" :=
    dtsImport_ne_fixed rel n haln _ (by decide)
  have hmap1 := count_map_inj_one (storeImportStmt_inj rel) names n hd hm
  have hmap2 := count_map_inj_one typeTableLine_inj names n hd hm
  have hmap3 := count_map_inj_one dispatchTableLine_inj names n hd hm
  have hmap4 := count_map_inj_one (dtsImportStmt_inj rel) names n hd hm
  refine ⟨?_, ?_, ?_, ?_, ?_, ?_, ?_⟩
  · rw [importStmts_ts_eq]
    simp [List.count_cons, List.count_append, hne1, hne2, hne3, hnes, hmap1]
  · rw [typeEntries_ts_eq]
    exact hmap2
  · rw [dispatch_ts_eq]
    exact hmap3
  · rw [importStmts_js_eq]
    simp [List.count_cons, List.count_append, hne1, hnes, hmap1]
  · rw [dispatch_js_eq]
    exact hmap3
  · rw [importStmts_dts_eq]
    simp [List.count_cons, List.count_append, hdne1, hdne2, hmap4]
  · rw [typeEntries_dts_eq]
    exact hmap2

/-- Witness for the amended C1 at the enumeration `counter, user`. -/
theorem claim_c1_witness :
    (importStmtsOf (tsContentLines ["counter", "user"] "./store")).count
        (storeImportStmt "./store" "user") = 1
    ∧ (dispatchEntriesOf (tsContentLines ["counter", "user"] "./store")).count
        (dispatchTableLine "user") = 1
    ∧ (typeEntriesOf (dtsContentLines ["counter", "user"] "./store")).count
        (typeTableLine "user") = 1 := by
  have h := claim_c1_identifier_once ["counter", "user"] "./store" "user"
    (by decide) (by decide) (by decide)
  exact ⟨h.1, h.2.2.1, h.2.2.2.2.2.2⟩

/-! ## Concrete emission pins

These equalities pin the line-based embedding to the exact flat text the
source template literals produce for the enumeration `counter, user` with
the module specifier base `./store`, matching `src/index.ts` character for
character. -/

set_option maxRecDepth 4000 in
theorem jsContent_pinned :
    jsContent ["counter", "user"] "./store"
      = "\n/* eslint-disable */\nimport \x7b storeToRefs \x7d from \x27pinia\x27\n\nimport counterStore from \x27./store/counter\x27\nimport userStore from \x27./store/user\x27\n\n\nimport store from \x27./store\x27\n\nexport function useStore(storeName) \x7b\n  const storeExports = \x7b\n    counter: counterStore,\n    user: userStore,\n  \x7d\n\n  const targetStore = storeExports[storeName](store)\n  const storeRefs = storeToRefs(targetStore)\n\n  return \x7b ...targetStore, ...storeRefs \x7d\n\x7d\n" := by
  rfl

set_option maxRecDepth 4000 in
theorem dtsContent_pinned :
    dtsContent ["counter", "user"] "./store"
      = "\n/* eslint-disable */\nimport type \x7b ToRef, UnwrapRef \x7d from \x27vue\x27\nimport type \x7b StoreDefinition \x7d from \x27pinia\x27\n\nimport type counterStore from \x27./store/counter\x27\nimport type userStore from \x27./store/user\x27\n\n\ntype StoreToRefs<T extends StoreDefinition> = \x7b\n  [K in keyof ReturnType<T>]: ReturnType<T>[K] extends (...args: unknown[]) => unknown\n    ? ReturnType<T>[K]\n    : ToRef<UnwrapRef<ReturnType<T>[K]>>\n\x7d\n\ntype StoreExports = \x7b\n  counter: typeof counterStore\n  user: typeof userStore\n\x7d\n\nexport function useStore<T extends keyof StoreExports>(\n  storeName: T\n): StoreToRefs<StoreExports[T]>\n" := by
  rfl

set_option maxRecDepth 4000 in
theorem tsContent_pinned :
    tsContent ["counter", "user"] "./store"
      = "\n/* eslint-disable */\n// @ts-nocheck\nimport \x7b storeToRefs \x7d from \x27pinia\x27\nimport type \x7b ToRef, UnwrapRef \x7d from \x27vue\x27\nimport type \x7b StoreDefinition \x7d from \x27pinia\x27\n\nimport counterStore from \x27./store/counter\x27\nimport userStore from \x27./store/user\x27\n\n\nimport store from \x27./store\x27\n\ntype StoreToRefs<T extends StoreDefinition> = \x7b\n  [K in keyof ReturnType<T>]: ReturnType<T>[K] extends (...args: unknown[]) => unknown\n    ? ReturnType<T>[K]\n    : ToRef<UnwrapRef<ReturnType<T>[K]>>\n\x7d\n\ntype StoreExports = \x7b\n  counter: typeof counterStore\n  user: typeof userStore\n\x7d\n\nexport function useStore<T extends keyof StoreExports>(\n  storeName: T\n): StoreToRefs<StoreExports[T]> \x7b\n  const storeExports = \x7b\n    counter: counterStore,\n    user: userStore,\n  \x7d as StoreExports\n\n  const targetStore = storeExports[storeName](store)\n  const storeRefs = storeToRefs(targetStore)\n\n  return \x7b ...targetStore, ...storeRefs \x7d as StoreToRefs<StoreExports[T]>\n\x7d\n" := by
  rfl
